import Mathlib

set_option maxHeartbeats 1600000
set_option maxRecDepth 16384

namespace SdvxRgb

/-!  Shallow embedding of the SDVX RGB transform/configuration subsystem
(`transform.h` / the transform translation unit).  C `int` arithmetic is
modelled by `Int` with truncated division `Int.tdiv` and truncated
remainder `Int.tmod`, matching C's `/` and `%`; a `static_cast<uint8_t>`
is reduction modulo 256 (`u8`). -/

/-- The `static_cast<uint8_t>` applied to a C `int`: reduction modulo 2^8. -/
def u8 (x : Int) : Int := x % 256

/-- Model of `RGBtoHSV` from the source: RGB in 0-255 to (h, s, v) with
H = 0-359, S = 0-255, V = 0-255.  The result triple is (h, s, v), in the
order of the three out-parameters. -/
def RGBtoHSV (r g b : Int) : Int × Int × Int :=
  let maxVal := max r (max g b)
  let minVal := min r (min g b)
  let delta := maxVal - minVal
  let v := maxVal
  if maxVal = 0 then (0, 0, v)
  else
    let s := (delta * 255).tdiv maxVal
    if delta = 0 then (0, s, v)
    else
      let h :=
        if maxVal = r then (60 * (g - b)).tdiv delta
        else if maxVal = g then 120 + (60 * (b - r)).tdiv delta
        else 240 + (60 * (r - g)).tdiv delta
      (if h < 0 then h + 360 else h, s, v)

/-- Model of `HSVtoRGB` from the source: (h, s, v) back to an RGB triple of bytes;
each `(uint8_t)` cast in the switch is `u8`. -/
def HSVtoRGB (h s v : Int) : Int × Int × Int :=
  if s = 0 then (u8 v, u8 v, u8 v)
  else
    let h2 := h.tmod 360
    let region := h2.tdiv 60
    let remainder := h2.tmod 60
    let p := (v * (255 - s)).tdiv 255
    let q := (v * (255 - (s * remainder).tdiv 60)).tdiv 255
    let t := (v * (255 - (s * (60 - remainder)).tdiv 60)).tdiv 255
    if region = 0 then (u8 v, u8 t, u8 p)
    else if region = 1 then (u8 q, u8 v, u8 p)
    else if region = 2 then (u8 p, u8 v, u8 t)
    else if region = 3 then (u8 p, u8 q, u8 v)
    else if region = 4 then (u8 t, u8 p, u8 v)
    else (u8 v, u8 p, u8 q)

/-! Arithmetic toolkit for truncated division bounds. -/

theorem tdiv_le_of_le_mul {a b M : Int} (hb : 0 < b) (hM : 0 ≤ M) (h : a ≤ M * b) :
    a.tdiv b ≤ M := by
  rcases le_or_lt 0 a with ha | ha
  · rw [Int.tdiv_eq_ediv ha hb.le]
    calc a / b ≤ (M * b) / b := Int.ediv_le_ediv hb h
    _ = M := Int.mul_ediv_cancel _ hb.ne'
  · have h1 : a.tdiv b = -((-a).tdiv b) := by rw [← Int.neg_tdiv, neg_neg]
    have h2 : 0 ≤ (-a).tdiv b := Int.tdiv_nonneg (by omega) hb.le
    omega

theorem neg_le_tdiv {a b m : Int} (hb : 0 < b) (hm : 0 ≤ m) (h : -(m * b) ≤ a) :
    -m ≤ a.tdiv b := by
  rcases le_or_lt 0 a with ha | ha
  · have := Int.tdiv_nonneg ha hb.le
    omega
  · have h1 : a.tdiv b = -((-a).tdiv b) := by rw [← Int.neg_tdiv, neg_neg]
    have h2 : (-a).tdiv b ≤ m := tdiv_le_of_le_mul hb hm (by omega)
    omega

theorem tdiv_nonneg_of {a b : Int} (ha : 0 ≤ a) (hb : 0 ≤ b) : 0 ≤ a.tdiv b :=
  Int.tdiv_nonneg ha hb

theorem u8_id {x : Int} (h0 : 0 ≤ x) (h1 : x < 256) : u8 x = x :=
  Int.emod_eq_of_lt h0 h1

/-- The three channels produced by `HSVtoRGB` on in-range inputs are
non-negative, at most `v`, and at least one of them equals `v`. -/
theorem HSVtoRGB_channel_bounds {h s v : Int} (hh : 0 ≤ h)
    (hs0 : 0 ≤ s) (hs1 : s ≤ 255) (hv0 : 0 ≤ v) (hv1 : v ≤ 255) :
    (0 ≤ (HSVtoRGB h s v).1 ∧ (HSVtoRGB h s v).1 ≤ v) ∧
    (0 ≤ (HSVtoRGB h s v).2.1 ∧ (HSVtoRGB h s v).2.1 ≤ v) ∧
    (0 ≤ (HSVtoRGB h s v).2.2 ∧ (HSVtoRGB h s v).2.2 ≤ v) ∧
    ((HSVtoRGB h s v).1 = v ∨ (HSVtoRGB h s v).2.1 = v ∨ (HSVtoRGB h s v).2.2 = v) := by
  have hval : u8 v = v := u8_id hv0 (by omega)
  by_cases hs : s = 0
  · simp only [HSVtoRGB, if_pos hs, hval]
    exact ⟨by omega, by omega, by omega, by tauto⟩
  · have hrem0 : 0 ≤ (h.tmod 360).tmod 60 := Int.tmod_nonneg _ (Int.tmod_nonneg _ hh)
    have hrem1 : (h.tmod 360).tmod 60 < 60 := Int.tmod_lt_of_pos _ (by omega)
    set rem := (h.tmod 360).tmod 60 with hremdef
    have hq_in0 : 0 ≤ (s * rem).tdiv 60 := Int.tdiv_nonneg (mul_nonneg hs0 hrem0) (by omega)
    have hq_in1 : (s * rem).tdiv 60 ≤ 255 := by
      refine tdiv_le_of_le_mul (by omega) (by omega) ?_
      have : s * rem ≤ 255 * 60 :=
        mul_le_mul hs1 (by omega) hrem0 (by norm_num)
      omega
    have ht_in0 : 0 ≤ (s * (60 - rem)).tdiv 60 :=
      Int.tdiv_nonneg (mul_nonneg hs0 (by omega)) (by omega)
    have ht_in1 : (s * (60 - rem)).tdiv 60 ≤ 255 := by
      refine tdiv_le_of_le_mul (by omega) (by omega) ?_
      have : s * (60 - rem) ≤ 255 * 60 :=
        mul_le_mul hs1 (by omega) (by omega) (by norm_num)
      omega
    have bound : ∀ x : Int, 0 ≤ x → x ≤ 255 →
        0 ≤ (v * (255 - x)).tdiv 255 ∧ (v * (255 - x)).tdiv 255 ≤ v := by
      intro x hx0 hx1
      refine ⟨Int.tdiv_nonneg (mul_nonneg hv0 (by omega)) (by norm_num), ?_⟩
      refine tdiv_le_of_le_mul (by norm_num) hv0 ?_
      exact mul_le_mul_of_nonneg_left (by omega) hv0
    have hp := bound s hs0 hs1
    have hq := bound _ hq_in0 hq_in1
    have ht := bound _ ht_in0 ht_in1
    set p := (v * (255 - s)).tdiv 255 with hpdef
    set q := (v * (255 - (s * rem).tdiv 60)).tdiv 255 with hqdef
    set t := (v * (255 - (s * (60 - rem)).tdiv 60)).tdiv 255 with htdef
    have hup : u8 p = p := u8_id hp.1 (by omega)
    have huq : u8 q = q := u8_id hq.1 (by omega)
    have hut : u8 t = t := u8_id ht.1 (by omega)
    simp only [HSVtoRGB, if_neg hs, ← hremdef, ← hpdef, ← hqdef, ← htdef]
    split_ifs
    all_goals
      dsimp only
      exact ⟨by omega, by omega, by omega, by tauto⟩

/-- The v component returned by `RGBtoHSV` is the channel maximum. -/
theorem RGBtoHSV_v (r g b : Int) : (RGBtoHSV r g b).2.2 = max r (max g b) := by
  simp only [RGBtoHSV]
  split_ifs <;> rfl

/-- Ranges of the h and s components of `RGBtoHSV` on byte inputs:
h lands in [0, 360) and s in [0, 255]. -/
theorem RGBtoHSV_hs_range {r g b : Int} (hr0 : 0 ≤ r) (hr1 : r ≤ 255)
    (hg0 : 0 ≤ g) (hg1 : g ≤ 255) (hb0 : 0 ≤ b) (hb1 : b ≤ 255) :
    (0 ≤ (RGBtoHSV r g b).1 ∧ (RGBtoHSV r g b).1 < 360) ∧
    (0 ≤ (RGBtoHSV r g b).2.1 ∧ (RGBtoHSV r g b).2.1 ≤ 255) := by
  simp only [RGBtoHSV]
  set M := max r (max g b) with hM
  set m := min r (min g b) with hm
  have hMr : r ≤ M := le_max_left _ _
  have hMg : g ≤ M := le_trans (le_max_left _ _) (le_max_right _ _)
  have hMb : b ≤ M := le_trans (le_max_right _ _) (le_max_right _ _)
  have hmr : m ≤ r := min_le_left _ _
  have hmg : m ≤ g := le_trans (min_le_right _ _) (min_le_left _ _)
  have hmb : m ≤ b := le_trans (min_le_right _ _) (min_le_right _ _)
  have hm0 : 0 ≤ m := le_min hr0 (le_min hg0 hb0)
  have key : ∀ x y : Int, m ≤ x → x ≤ M → m ≤ y → y ≤ M → ¬(M - m = 0) →
      -60 ≤ (60 * (x - y)).tdiv (M - m) ∧ (60 * (x - y)).tdiv (M - m) ≤ 60 := by
    intro x y hx0 hx1 hy0 hy1 hd
    exact ⟨neg_le_tdiv (by omega) (by norm_num) (by omega),
           tdiv_le_of_le_mul (by omega) (by norm_num) (by omega)⟩
  have skey : ¬(M = 0) → 0 ≤ ((M - m) * 255).tdiv M ∧ ((M - m) * 255).tdiv M ≤ 255 := by
    intro hMne
    exact ⟨Int.tdiv_nonneg (by omega) (by omega),
           tdiv_le_of_le_mul (by omega) (by norm_num) (by omega)⟩
  split_ifs with h1 h2 h3 h4 h5 h6 h7
  all_goals dsimp only
  · exact ⟨by omega, by omega⟩
  · exact ⟨by omega, (skey h1).1, (skey h1).2⟩
  · have := key g b hmg hMg hmb hMb h2
    exact ⟨by omega, (skey h1).1, (skey h1).2⟩
  · have := key g b hmg hMg hmb hMb h2
    exact ⟨by omega, (skey h1).1, (skey h1).2⟩
  · have := key b r hmb hMb hmr hMr h2
    exact ⟨by omega, (skey h1).1, (skey h1).2⟩
  · have := key b r hmb hMb hmr hMr h2
    exact ⟨by omega, (skey h1).1, (skey h1).2⟩
  · have := key r g hmr hMr hmg hMg h2
    exact ⟨by omega, (skey h1).1, (skey h1).2⟩
  · have := key r g hmr hMr hmg hMg h2
    exact ⟨by omega, (skey h1).1, (skey h1).2⟩

/-! Data model from `transform.h`. The three `uint8_t lut_[256]` arrays are
modelled as functions on `Int`; every value the source ever stores in them is
already clamped to [0, 255] before the byte store (see `BuildGammaLUT`). -/

/-- Model of `ChannelOrder` from `transform.h`. -/
inductive ChannelOrder
  | CH_RGB
  | CH_RBG
  | CH_GRB
  | CH_GBR
  | CH_BRG
  | CH_BGR
deriving DecidableEq

export ChannelOrder (CH_RGB CH_RBG CH_GRB CH_GBR CH_BRG CH_BGR)

/-- Model of `StripTransform` from `transform.h`.  The three gamma exponents are C
`float`s read from text; they are modelled as exact rationals (every claim
settled here depends on them only through equality and the `gamma == 1.0f`
test, both of which the rational model preserves for the configurations
involved). -/
structure StripTransform where
  enabled : Bool
  channelOrder : ChannelOrder
  gamma_r : ℚ
  gamma_g : ℚ
  gamma_b : ℚ
  hue_shift : Int
  saturation : Int
  brightness : Int
  static_color_enabled : Bool
  static_r : Int
  static_g : Int
  static_b : Int
  gradient_enabled : Bool
  gradient_r2 : Int
  gradient_g2 : Int
  gradient_b2 : Int
  lut_r : Int → Int
  lut_g : Int → Int
  lut_b : Int → Int

/-- Model of `BuildGammaLUT` from the source.  The `gamma == 1.0f` branch stores the
identity table exactly.  The other branch computes
`static_cast<int>(powf(i / 255.0f, 1 / gamma) * 255.0f + 0.5f)` over IEEE-754
single floats; that float-valued integer is not modelled and is the
uninterpreted parameter `powInt gamma i`.  The clamp `min(max(val, 0), 255)`
and the byte store around it are the source's. -/
def BuildGammaLUT (powInt : ℚ → Int → Int) (gamma : ℚ) : Int → Int :=
  if gamma = 1 then fun i => i
  else fun i => min (max (powInt gamma i) 0) 255

/-- The channel-reorder switch at the top of `TransformStrip`'s loop
(`CH_RGB` is the `default:` label). -/
def channelSwap (o : ChannelOrder) (r g b : Int) : Int × Int × Int :=
  match o with
  | CH_RBG => (r, b, g)
  | CH_GRB => (g, r, b)
  | CH_GBR => (g, b, r)
  | CH_BRG => (b, r, g)
  | CH_BGR => (b, g, r)
  | CH_RGB => (r, g, b)

/-- Step 3 of `TransformStrip`'s loop: static color / gradient, or hue
shift / saturation scaling.  `staticH1 staticS1 staticH2 staticS2` are the
values precomputed before the loop; `numLEDs = numBytes / 3` and `ledIdx =
i / 3` as in the source. -/
def step3 (strip : StripTransform) (staticH1 staticS1 staticH2 staticS2 : Int)
    (numLEDs ledIdx : Int) (c : Int × Int × Int) : Int × Int × Int :=
  if strip.static_color_enabled then
    let v := (RGBtoHSV c.1 c.2.1 c.2.2).2.2
    if strip.gradient_enabled ∧ numLEDs > 1 then
      let hDiff0 := staticH2 - staticH1
      let hDiff1 := if hDiff0 > 180 then hDiff0 - 360 else hDiff0
      let hDiff := if hDiff1 < -180 then hDiff1 + 360 else hDiff1
      let interpH := (staticH1 + (hDiff * ledIdx).tdiv (numLEDs - 1) + 360).tmod 360
      let interpS := staticS1 + ((staticS2 - staticS1) * ledIdx).tdiv (numLEDs - 1)
      HSVtoRGB interpH interpS v
    else
      HSVtoRGB staticH1 staticS1 v
  else if strip.hue_shift ≠ 0 ∨ strip.saturation ≠ 100 then
    let hsv := RGBtoHSV c.1 c.2.1 c.2.2
    let h2 := (hsv.1 + strip.hue_shift).tmod 360
    let s2 :=
      if strip.saturation ≠ 100 then min ((hsv.2.1 * strip.saturation).tdiv 100) 255
      else hsv.2.1
    HSVtoRGB h2 s2 hsv.2.2
  else c

/-- The body of `TransformStrip`'s loop for one LED triplet: channel
reorder, gamma LUT, step 3, then brightness scaling with its
`(uint8_t)(std::min(.., 255))` stores. -/
def transformLED (strip : StripTransform) (staticH1 staticS1 staticH2 staticS2 : Int)
    (numLEDs ledIdx : Int) (c : Int × Int × Int) : Int × Int × Int :=
  let c1 := channelSwap strip.channelOrder c.1 c.2.1 c.2.2
  let c2 : Int × Int × Int := (strip.lut_r c1.1, strip.lut_g c1.2.1, strip.lut_b c1.2.2)
  let c3 := step3 strip staticH1 staticS1 staticH2 staticS2 numLEDs ledIdx c2
  if strip.brightness ≠ 100 then
    (u8 (min ((c3.1 * strip.brightness).tdiv 100) 255),
     u8 (min ((c3.2.1 * strip.brightness).tdiv 100) 255),
     u8 (min ((c3.2.2 * strip.brightness).tdiv 100) 255))
  else c3

/-- The `for (i = 0; i < numBytes; i += 3)` loop over the buffer, with
`ledIdx = i / 3` counting up from 0. -/
def transformGo (strip : StripTransform) (staticH1 staticS1 staticH2 staticS2 : Int)
    (numLEDs : Int) : Int → List (Int × Int × Int) → List (Int × Int × Int)
  | _, [] => []
  | ledIdx, c :: rest =>
      transformLED strip staticH1 staticS1 staticH2 staticS2 numLEDs ledIdx c ::
        transformGo strip staticH1 staticS1 staticH2 staticS2 numLEDs (ledIdx + 1) rest

/-- Model of `TransformStrip` from the source, acting on the buffer as a list of
RGB triplets (the caller always passes `numBytes` = 3 × LED count, so
`numLEDs = numBytes / 3` is the list length).  The in-place mutation is
rendered as returning the new buffer. -/
def TransformStrip (strip : StripTransform) (data : List (Int × Int × Int)) :
    List (Int × Int × Int) :=
  if !strip.enabled then data
  else
    let st1 :=
      if strip.static_color_enabled then
        RGBtoHSV strip.static_r strip.static_g strip.static_b
      else (0, 0, 0)
    let st2 :=
      if strip.static_color_enabled ∧ strip.gradient_enabled then
        RGBtoHSV strip.gradient_r2 strip.gradient_g2 strip.gradient_b2
      else (0, 0, 0)
    transformGo strip st1.1 st1.2.1 st2.1 st2.2.1 (data.length : Int) 0 data

/-! Text parsing.  Strings are the values handed back by the Windows
profile-string API; the INI file itself is abstracted as the map
`Ini : String → String → Option String` from (section, key) to the stored
value, which is what `GetPrivateProfileStringA` queries. -/

/-- C `isspace` characters (C locale). -/
def isWS (c : Char) : Bool :=
  c == ' ' || c == '\t' || c == '\n' || c == '\r' || c.toNat == 11 || c.toNat == 12

/-- Hexadecimal digit test. -/
def isHexD (c : Char) : Bool :=
  c.isDigit || decide ('a' ≤ c ∧ c ≤ 'f') || decide ('A' ≤ c ∧ c ≤ 'F')

/-- Value of a hexadecimal digit. -/
def hexV (c : Char) : Nat :=
  if c.isDigit then c.toNat - 48
  else if decide ('a' ≤ c ∧ c ≤ 'f') then c.toNat - 87
  else c.toNat - 55

/-- Accumulate leading decimal digits: returns (value, digit count, rest). -/
def digitsAcc : List Char → Nat → Nat → Nat × Nat × List Char
  | c :: cs, acc, n =>
      if c.isDigit then digitsAcc cs (acc * 10 + (c.toNat - 48)) (n + 1)
      else (acc, n, c :: cs)
  | [], acc, n => (acc, n, [])

/-- Accumulate leading hexadecimal digits within a remaining field width:
returns (value, digit count). -/
def hexAcc : List Char → Nat → Nat → Nat → Nat × Nat
  | c :: cs, Nat.succ w, acc, n =>
      if isHexD c then hexAcc cs w (acc * 16 + hexV c) (n + 1) else (acc, n)
  | _, _, acc, n => (acc, n)

/-- Model of `sscanf_s(str, "%06x", &val)` (MSVC CRT): skip leading
whitespace (not counted against the field width), then within the next at
most `width` characters read an optionally signed hexadecimal integer — an
optional `+`/`-`, an optional `0x`/`0X` prefix when a hex digit follows, then
hex digits, stopping at the first character that is not a hex digit.  The
scan fails (returns `none`, i.e. `sscanf` returns 0) when no digit was
consumed; the stored value is the unsigned 32-bit reduction.  Locale forms
beyond this are outside the model. -/
def scanfHex (width : Nat) (cs0 : List Char) : Option Nat :=
  let cs := cs0.dropWhile isWS
  let sw : Bool × List Char × Nat :=
    match cs with
    | '-' :: r => (true, r, width - 1)
    | '+' :: r => (false, r, width - 1)
    | r => (false, r, width)
  let pw : List Char × Nat :=
    match sw.2.1 with
    | '0' :: x :: d :: r =>
        if (x == 'x' || x == 'X') && isHexD d && decide (3 ≤ sw.2.2) then (d :: r, sw.2.2 - 2)
        else sw.2
    | _ => sw.2
  let vn := hexAcc pw.1 pw.2 0 0
  if vn.2 = 0 then none
  else some (if sw.1 then (2 ^ 32 - vn.1 % 2 ^ 32) % 2 ^ 32 else vn.1 % 2 ^ 32)

/-- Model of `ParseHexColor` from the source: optional `'#'`, then the string must
have length exactly 6, then `sscanf_s("%06x")`; the three out-bytes are the
shifted-and-masked fields of the scanned value. -/
def ParseHexColor (s : String) : Option (Int × Int × Int) :=
  let cs := s.toList
  if cs.isEmpty then none
  else
    let hex := if cs.head? == some '#' then cs.tail else cs
    if hex.length ≠ 6 then none
    else
      match scanfHex 6 hex with
      | none => none
      | some val =>
          some ((((val >>> 16) &&& 255 : Nat) : Int),
                (((val >>> 8) &&& 255 : Nat) : Int),
                ((val &&& 255 : Nat) : Int))

/-- The `atof` on the profile-string value, modelled over exact rationals:
optional whitespace and sign, decimal digits with optional fraction and
optional exponent, ignoring anything after; no digits parses as 0.
Hexadecimal floats, infinities and NaNs are outside the model, as is the
final rounding to `double` (the claims settled here depend on this value
only through equality of identically-derived occurrences). -/
def atofQ (s : String) : ℚ :=
  let cs := s.toList.dropWhile isWS
  let sg : ℚ × List Char :=
    match cs with
    | '-' :: r => (-1, r)
    | '+' :: r => (1, r)
    | r => (1, r)
  let ipart := digitsAcc sg.2 0 0
  let fpart : Nat × Nat × List Char :=
    match ipart.2.2 with
    | '.' :: r => digitsAcc r 0 0
    | r => (0, 0, r)
  if ipart.2.1 = 0 ∧ fpart.2.1 = 0 then 0
  else
    let mant : ℚ := (ipart.1 : ℚ) + (fpart.1 : ℚ) / ((10 : ℚ) ^ fpart.2.1)
    let ex : Int :=
      match fpart.2.2 with
      | 'e' :: r | 'E' :: r =>
          let es : Int × List Char :=
            match r with
            | '-' :: rr => (-1, rr)
            | '+' :: rr => (1, rr)
            | rr => (1, rr)
          let ev := digitsAcc es.2 0 0
          if ev.2.1 = 0 then 0 else es.1 * (ev.1 : Int)
      | _ => 0
    sg.1 * mant * (10 : ℚ) ^ ex

/-- The `atoi`-style parse used by `GetPrivateProfileIntA`: optional whitespace
and sign, then leading decimal digits; no digits parses as 0.  The API's
32-bit wraparound is outside the model (no claim settled here involves a
value near 2^32). -/
def atoiA (s : String) : Int :=
  let cs := s.toList.dropWhile isWS
  let sg : Int × List Char :=
    match cs with
    | '-' :: r => (-1, r)
    | '+' :: r => (1, r)
    | r => (1, r)
  sg.1 * ((digitsAcc sg.2 0 0).1 : Int)

/-- The `sprintf("%.4f", d)` followed by `atof`: the float default of
`GetProfileFloat` round-trips through a fixed 4-fractional-digit rendering.
Tie behaviour of the rendering is immaterial to everything proved here. -/
def q4 (x : ℚ) : ℚ := ((round (x * 10000) : ℤ) : ℚ) / 10000

/-- The parsed INI file, as the (section, key) → value map the Windows
profile APIs query; `none` is an absent key. -/
def Ini : Type := String → String → Option String

/-- Replace one key's value. -/
def iniSetKey (ini : Ini) (sec key v : String) : Ini :=
  fun s k => if s = sec ∧ k = key then some v else ini s k

/-- Remove one key. -/
def iniDelKey (ini : Ini) (sec key : String) : Ini :=
  fun s k => if s = sec ∧ k = key then none else ini s k

/-- The `GetPrivateProfileStringA` with an `nSize`-byte buffer: the stored value
when present, the supplied default otherwise, truncated to `nSize - 1`
characters. -/
def GetPrivateProfileStringA (ini : Ini) (sec key dflt : String) (nSize : Nat) : String :=
  ⟨(((ini sec key).getD dflt).toList.take (nSize - 1))⟩

/-- The `GetPrivateProfileIntA`: parses the stored value as a decimal integer,
or returns the default when the key is absent. -/
def GetPrivateProfileIntA (ini : Ini) (sec key : String) (dflt : Int) : Int :=
  match ini sec key with
  | some s => atoiA s
  | none => dflt

/-- Model of `GetProfileFloat` from the source: `GetPrivateProfileStringA` into a
64-byte buffer with the `%.4f`-formatted default, then `atof`. -/
def GetProfileFloat (ini : Ini) (sec key : String) (dflt : ℚ) : ℚ :=
  match ini sec key with
  | some s => atofQ ⟨s.toList.take 63⟩
  | none => q4 dflt

/-- case-insensitive string equality, as `_stricmp(..) == 0` (C locale). -/
def striEq (a b : String) : Bool :=
  a.toList.map Char.toLower == b.toList.map Char.toLower

def oRGB : String := "RGB"
def oRBG : String := "RBG"
def oGRB : String := "GRB"
def oGBR : String := "GBR"
def oBRG : String := "BRG"
def oBGR : String := "BGR"

/-- Model of `ParseChannelOrder` from the source. -/
def ParseChannelOrder (s : String) : ChannelOrder :=
  if striEq s oRBG then CH_RBG
  else if striEq s oGRB then CH_GRB
  else if striEq s oGBR then CH_GBR
  else if striEq s oBRG then CH_BRG
  else if striEq s oBGR then CH_BGR
  else CH_RGB

/-- The `defOrder` switch at the top of `LoadStripFromSection`
(the default case yields RGB). -/
def orderName : ChannelOrder → String
  | CH_RBG => oRBG
  | CH_GRB => oGRB
  | CH_GBR => oGBR
  | CH_BRG => oBRG
  | CH_BGR => oBGR
  | CH_RGB => oRGB

def kGlobal : String := "global"
def kChannelOrder : String := "channel_order"
def kGammaR : String := "gamma_r"
def kGammaG : String := "gamma_g"
def kGammaB : String := "gamma_b"
def kHueShift : String := "hue_shift"
def kSaturation : String := "saturation"
def kBrightness : String := "brightness"
def kStaticColor : String := "static_color"
def kGradientColor : String := "gradient_color"
def strEmpty : String := ""

/-- Model of `LoadStripFromSection` from the source: every field of the result is
assigned; the hue shift is wrapped with `((x % 360) + 360) % 360` (C `%` is
`Int.tmod`), saturation and brightness are clamped to [0, 200], the two
color keys use parse-or-inherit, a gradient needs the (just resolved)
static color, the LUTs are rebuilt from the resolved gammas, and `enabled`
is the deviation-from-identity test. -/
def LoadStripFromSection (powInt : ℚ → Int → Int) (ini : Ini) (sec : String)
    (defaults : StripTransform) : StripTransform :=
  let orderStr := GetPrivateProfileStringA ini sec kChannelOrder (orderName defaults.channelOrder) 16
  let co := ParseChannelOrder orderStr
  let gr := GetProfileFloat ini sec kGammaR defaults.gamma_r
  let gg := GetProfileFloat ini sec kGammaG defaults.gamma_g
  let gb := GetProfileFloat ini sec kGammaB defaults.gamma_b
  let hue := ((GetPrivateProfileIntA ini sec kHueShift defaults.hue_shift).tmod 360 + 360).tmod 360
  let sat := min (max (GetPrivateProfileIntA ini sec kSaturation defaults.saturation) 0) 200
  let bri := min (max (GetPrivateProfileIntA ini sec kBrightness defaults.brightness) 0) 200
  let colorStr := GetPrivateProfileStringA ini sec kStaticColor strEmpty 16
  let sc : Bool × Int × Int × Int :=
    match ParseHexColor colorStr with
    | some (r, g, b) => (true, r, g, b)
    | none => (defaults.static_color_enabled, defaults.static_r, defaults.static_g, defaults.static_b)
  let gradStr := GetPrivateProfileStringA ini sec kGradientColor strEmpty 16
  let gc : Bool × Int × Int × Int :=
    match (if sc.1 then ParseHexColor gradStr else none) with
    | some (r, g, b) => (true, r, g, b)
    | none => (defaults.gradient_enabled, defaults.gradient_r2, defaults.gradient_g2, defaults.gradient_b2)
  { enabled := decide (co ≠ CH_RGB ∨ gr ≠ 1 ∨ gg ≠ 1 ∨ gb ≠ 1 ∨
      hue ≠ 0 ∨ sat ≠ 100 ∨ bri ≠ 100 ∨ sc.1 = true ∨ gc.1 = true)
    channelOrder := co
    gamma_r := gr
    gamma_g := gg
    gamma_b := gb
    hue_shift := hue
    saturation := sat
    brightness := bri
    static_color_enabled := sc.1
    static_r := sc.2.1
    static_g := sc.2.2.1
    static_b := sc.2.2.2
    gradient_enabled := gc.1
    gradient_r2 := gc.2.1
    gradient_g2 := gc.2.2.1
    gradient_b2 := gc.2.2.2
    lut_r := BuildGammaLUT powInt gr
    lut_g := BuildGammaLUT powInt gg
    lut_b := BuildGammaLUT powInt gb }

/-! Configuration state.  `FILETIME` is a 64-bit timestamp; `{}` (both
DWORDs zero) is the value 0.  The INI path is fixed at startup and carries
no information for the claims, so it is not part of the state; the
filesystem at the moment of a call is abstracted as
`Option (Nat × Ini)` — `none` when `sdvxrgb.ini` is absent, otherwise the
file's write time and parsed contents. -/

/-- Model of `TransformConfig` from `transform.h` (minus the constant `iniPath`). -/
structure TransformConfig where
  strips : Fin 10 → StripTransform
  lastWriteTime : Nat
  callCounter : Int

/-- Model of `RELOAD_INTERVAL` from the source. -/
def RELOAD_INTERVAL : Int := 300

/-- The identity strip written by `InitConfig`'s loop and by `CheckReload`'s
deletion reset (both assign exactly this field list). -/
def identityStrip (powInt : ℚ → Int → Int) : StripTransform where
  enabled := false
  channelOrder := CH_RGB
  gamma_r := 1
  gamma_g := 1
  gamma_b := 1
  hue_shift := 0
  saturation := 100
  brightness := 100
  static_color_enabled := false
  static_r := 0
  static_g := 0
  static_b := 0
  gradient_enabled := false
  gradient_r2 := 0
  gradient_g2 := 0
  gradient_b2 := 0
  lut_r := BuildGammaLUT powInt 1
  lut_g := BuildGammaLUT powInt 1
  lut_b := BuildGammaLUT powInt 1

/-- Model of `InitConfig` from the source: identity defaults everywhere, zeroed
write time and counter (the path resolution is outside the model). -/
def InitConfig (powInt : ℚ → Int → Int) : TransformConfig where
  strips := fun _ => identityStrip powInt
  lastWriteTime := 0
  callCounter := 0

def sTitle : String := "title"
def sUpperLeftSpeaker : String := "upper_left_speaker"
def sUpperRightSpeaker : String := "upper_right_speaker"
def sLeftWing : String := "left_wing"
def sRightWing : String := "right_wing"
def sCtrlPanel : String := "ctrl_panel"
def sLowerLeftSpeaker : String := "lower_left_speaker"
def sLowerRightSpeaker : String := "lower_right_speaker"
def sWoofer : String := "woofer"
def sVUnit : String := "v_unit"

/-- Model of `StripSectionNames` from the source, indexed 0-9. -/
def StripSectionNames : Fin 10 → String :=
  ![sTitle, sUpperLeftSpeaker, sUpperRightSpeaker, sLeftWing, sRightWing,
    sCtrlPanel, sLowerLeftSpeaker, sLowerRightSpeaker, sWoofer, sVUnit]

/-- The local `globalDefaults` initialisation in `LoadConfig` — exactly the
identity field values (its `enabled` and LUT members are never read by
`LoadStripFromSection`, so the uninitialised ones are given the identity
values too). -/
def globalDefaultsInit (powInt : ℚ → Int → Int) : StripTransform :=
  identityStrip powInt

/-- Model of `LoadConfig` from the source.  When the file is absent every strip only
has its `enabled` flag cleared (the other fields are left as they were) and
the stored time is untouched; otherwise the write time is stored, the
`[global]` section is resolved against the hardcoded identity, and each
strip section is resolved against those global defaults. -/
def LoadConfig (powInt : ℚ → Int → Int) (fs : Option (Nat × Ini))
    (config : TransformConfig) : TransformConfig :=
  match fs with
  | none =>
      { config with strips := fun i => { config.strips i with enabled := false } }
  | some (t, ini) =>
      let gd := LoadStripFromSection powInt ini kGlobal (globalDefaultsInit powInt)
      { config with
        lastWriteTime := t
        strips := fun i => LoadStripFromSection powInt ini (StripSectionNames i) gd }

/-- Model of `CheckReload` from the source: increment the counter and return unless
it reached `RELOAD_INTERVAL`; then reset it and look at the file.  A vanished
file resets everything to identity once (only when the stored time is
nonzero); a present file triggers `LoadConfig` exactly when
`CompareFileTime` says the write time differs from the stored one. -/
def CheckReload (powInt : ℚ → Int → Int) (fs : Option (Nat × Ini))
    (config : TransformConfig) : TransformConfig :=
  let c1 := { config with callCounter := config.callCounter + 1 }
  if c1.callCounter < RELOAD_INTERVAL then c1
  else
    let c2 := { c1 with callCounter := 0 }
    match fs with
    | none =>
        if c2.lastWriteTime ≠ 0 then
          { c2 with lastWriteTime := 0, strips := fun _ => identityStrip powInt }
        else c2
    | some (t, ini) =>
        if t ≠ c2.lastWriteTime then LoadConfig powInt (some (t, ini)) c2 else c2

/-- The configuration-mutating entry points: `LoadConfig` (as called from
`DllMain` and from `CheckReload`) and `CheckReload` (as called from the
hook), each against whatever the filesystem holds at that moment. -/
inductive ConfigEvent
  | load (fs : Option (Nat × Ini))
  | check (fs : Option (Nat × Ini))

/-- One configuration transition. -/
def stepConfig (powInt : ℚ → Int → Int) : ConfigEvent → TransformConfig → TransformConfig
  | ConfigEvent.load fs, c => LoadConfig powInt fs c
  | ConfigEvent.check fs, c => CheckReload powInt fs c

/-- The configuration states reachable from `InitConfig` through any
sequence of loads and reload checks. -/
inductive ReachableConfig (powInt : ℚ → Int → Int) : TransformConfig → Prop
  | init : ReachableConfig powInt (InitConfig powInt)
  | step (e : ConfigEvent) (c : TransformConfig) :
      ReachableConfig powInt c → ReachableConfig powInt (stepConfig powInt e c)

/-! Theorems. -/

/-- A concrete strip used to instantiate hypotheses in closed corollaries:
identity everywhere, identity LUTs. -/
def sampleStrip : StripTransform where
  enabled := false
  channelOrder := CH_RGB
  gamma_r := 1
  gamma_g := 1
  gamma_b := 1
  hue_shift := 0
  saturation := 100
  brightness := 100
  static_color_enabled := false
  static_r := 0
  static_g := 0
  static_b := 0
  gradient_enabled := false
  gradient_r2 := 0
  gradient_g2 := 0
  gradient_b2 := 0
  lut_r := fun i => i
  lut_g := fun i => i
  lut_b := fun i => i

/-- C1: `TransformStrip` on a strip whose `enabled` flag is false returns
the buffer byte-for-byte unchanged, and every strip of the fully-default
configuration built by `InitConfig` has `enabled = false`, so the
fully-default (identity) configuration never modifies any input buffer. -/
theorem C1_inactive_transform_is_identity :
    (∀ (strip : StripTransform) (data : List (Int × Int × Int)),
        strip.enabled = false → TransformStrip strip data = data) ∧
    (∀ (powInt : ℚ → Int → Int) (i : Fin 10) (data : List (Int × Int × Int)),
        ((InitConfig powInt).strips i).enabled = false ∧
        TransformStrip ((InitConfig powInt).strips i) data = data) := by
  constructor
  · intro strip data h
    simp [TransformStrip, h]
  · intro powInt i data
    exact ⟨rfl, by simp [TransformStrip, InitConfig, identityStrip]⟩

/-- C1 witness: the identity-default sample strip leaves a concrete buffer
unchanged. -/
theorem C1_witness :
    sampleStrip.enabled = false ∧
    TransformStrip sampleStrip [(1, 2, 3), (200, 0, 57)] = [(1, 2, 3), (200, 0, 57)] :=
  ⟨rfl, C1_inactive_transform_is_identity.1 sampleStrip _ rfl⟩

/-- The `((x % 360) + 360) % 360` over C's truncated `%` is Euclidean reduction
modulo 360. -/
theorem tmod_wrap360 (x : Int) : ((x.tmod 360) + 360).tmod 360 = x % 360 := by
  have hd : x.tmod 360 = x - 360 * x.tdiv 360 := Int.tmod_def x 360
  have hub : x.tmod 360 < 360 := Int.tmod_lt_of_pos x (by norm_num)
  have hlb : -360 < x.tmod 360 := by
    have h1 : (-x).tmod 360 = -x - 360 * ((-x).tdiv 360) := Int.tmod_def (-x) 360
    have h2 : (-x).tmod 360 < 360 := Int.tmod_lt_of_pos (-x) (by norm_num)
    have h3 : (-x).tdiv 360 = -(x.tdiv 360) := Int.neg_tdiv x 360
    omega
  have he : ((x.tmod 360) + 360).tmod 360 = ((x.tmod 360) + 360) % 360 :=
    Int.tmod_eq_emod (by omega) (by norm_num)
  rw [he, hd]
  omega

/-- The `LoadStripFromSection` reads only its section's eight keys: equal
lookups for the seven non-hue keys and equal wrapped hue values give equal
results. -/
theorem LoadStripFromSection_ext (powInt : ℚ → Int → Int) (ini1 ini2 : Ini)
    (sec : String) (d : StripTransform)
    (hco : ini1 sec kChannelOrder = ini2 sec kChannelOrder)
    (hgr : ini1 sec kGammaR = ini2 sec kGammaR)
    (hgg : ini1 sec kGammaG = ini2 sec kGammaG)
    (hgb : ini1 sec kGammaB = ini2 sec kGammaB)
    (hhue : ((GetPrivateProfileIntA ini1 sec kHueShift d.hue_shift).tmod 360 + 360).tmod 360 =
            ((GetPrivateProfileIntA ini2 sec kHueShift d.hue_shift).tmod 360 + 360).tmod 360)
    (hsat : ini1 sec kSaturation = ini2 sec kSaturation)
    (hbri : ini1 sec kBrightness = ini2 sec kBrightness)
    (hsc : ini1 sec kStaticColor = ini2 sec kStaticColor)
    (hgc : ini1 sec kGradientColor = ini2 sec kGradientColor) :
    LoadStripFromSection powInt ini1 sec d = LoadStripFromSection powInt ini2 sec d := by
  simp only [GetPrivateProfileIntA] at hhue
  simp only [LoadStripFromSection, GetPrivateProfileStringA, GetPrivateProfileIntA,
    GetProfileFloat, hco, hgr, hgg, hgb, hsat, hbri, hsc, hgc, hhue]

/-- Setting a different key leaves a lookup unchanged. -/
theorem iniSetKey_ne_key {k key : String} (ini : Ini) (sec v s : String)
    (h : k ≠ key) : iniSetKey ini sec key v s k = ini s k :=
  if_neg (fun hc => h hc.2)

/-- Looking up the key just set. -/
theorem iniSetKey_same (ini : Ini) (sec key v : String) :
    iniSetKey ini sec key v sec key = some v :=
  if_pos ⟨rfl, rfl⟩

def s370 : String := "370"
def s10 : String := "10"

/-- Loading any section is unaffected by whether a `hue_shift` of `"370"`
or `"10"` was written anywhere, since both wrap to 10. -/
theorem loadStrip_hue370_eq_hue10 (powInt : ℚ → Int → Int) (ini : Ini)
    (sec sec' : String) (d : StripTransform) :
    LoadStripFromSection powInt (iniSetKey ini sec kHueShift s370) sec' d =
    LoadStripFromSection powInt (iniSetKey ini sec kHueShift s10) sec' d := by
  refine LoadStripFromSection_ext powInt _ _ sec' d ?_ ?_ ?_ ?_ ?_ ?_ ?_ ?_ ?_
  case refine_5 =>
    by_cases hss : sec' = sec
    · subst hss
      simp only [GetPrivateProfileIntA, iniSetKey_same]
      decide
    · simp only [GetPrivateProfileIntA, iniSetKey, hss, false_and, if_false]
  all_goals
    simp [iniSetKey, kChannelOrder, kGammaR, kGammaG, kGammaB, kSaturation,
      kBrightness, kStaticColor, kGradientColor, kHueShift]

/-- C8: the resolved hue shift of any loaded strip is the Euclidean
reduction mod 360 of the raw parsed value (modular wrapping into [0, 359],
for negative and for >359 inputs alike), and a configuration whose
`hue_shift` entry reads 370 loads identically to one reading 10 — same
strip, same `TransformStrip` output on every buffer, and same full
`LoadConfig` result — all other contents equal. -/
theorem C8_hue_wraparound :
    (∀ (powInt : ℚ → Int → Int) (ini : Ini) (sec : String) (d : StripTransform),
        (LoadStripFromSection powInt ini sec d).hue_shift =
          (GetPrivateProfileIntA ini sec kHueShift d.hue_shift) % 360) ∧
    (∀ (powInt : ℚ → Int → Int) (ini : Ini) (sec : String) (d : StripTransform),
        LoadStripFromSection powInt (iniSetKey ini sec kHueShift s370) sec d =
        LoadStripFromSection powInt (iniSetKey ini sec kHueShift s10) sec d) ∧
    (∀ (powInt : ℚ → Int → Int) (ini : Ini) (sec : String) (d : StripTransform)
        (data : List (Int × Int × Int)),
        TransformStrip (LoadStripFromSection powInt (iniSetKey ini sec kHueShift s370) sec d) data =
        TransformStrip (LoadStripFromSection powInt (iniSetKey ini sec kHueShift s10) sec d) data) ∧
    (∀ (powInt : ℚ → Int → Int) (ini : Ini) (sec : String) (t : Nat) (c : TransformConfig),
        LoadConfig powInt (some (t, iniSetKey ini sec kHueShift s370)) c =
        LoadConfig powInt (some (t, iniSetKey ini sec kHueShift s10)) c) := by
  refine ⟨?_, ?_, ?_, ?_⟩
  · intro powInt ini sec d
    show ((GetPrivateProfileIntA ini sec kHueShift d.hue_shift).tmod 360 + 360).tmod 360 =
      (GetPrivateProfileIntA ini sec kHueShift d.hue_shift) % 360
    exact tmod_wrap360 _
  · intro powInt ini sec d
    exact loadStrip_hue370_eq_hue10 powInt ini sec sec d
  · intro powInt ini sec d data
    rw [loadStrip_hue370_eq_hue10 powInt ini sec sec d]
  · intro powInt ini sec t c
    simp only [LoadConfig, loadStrip_hue370_eq_hue10]

/-- Off-window call: `CheckReload` only increments the counter (for any
filesystem state — no check is performed). -/
theorem CheckReload_counter_only (powInt : ℚ → Int → Int) (fs : Option (Nat × Ini))
    (c : TransformConfig) (h : c.callCounter + 1 < RELOAD_INTERVAL) :
    CheckReload powInt fs c = { c with callCounter := c.callCounter + 1 } := by
  simp only [CheckReload]
  rw [if_pos h]

/-- Due check, file present, timestamp unchanged: only the counter is
reset (no re-parse, whatever the file contents). -/
theorem CheckReload_unchanged_time (powInt : ℚ → Int → Int) (t : Nat) (ini : Ini)
    (c : TransformConfig) (h : ¬(c.callCounter + 1 < RELOAD_INTERVAL))
    (he : c.lastWriteTime = t) :
    CheckReload powInt (some (t, ini)) c = { c with callCounter := 0 } := by
  simp only [CheckReload]
  rw [if_neg h, if_neg (by simp [he])]

/-- Due check, file present, timestamp changed: the result is exactly a
`LoadConfig` of the current contents over the counter-reset state. -/
theorem CheckReload_changed_time (powInt : ℚ → Int → Int) (t : Nat) (ini : Ini)
    (c : TransformConfig) (h : ¬(c.callCounter + 1 < RELOAD_INTERVAL))
    (hne : c.lastWriteTime ≠ t) :
    CheckReload powInt (some (t, ini)) c =
      LoadConfig powInt (some (t, ini)) { c with callCounter := 0 } := by
  simp only [CheckReload]
  rw [if_neg h, if_pos (by simp; omega)]

/-- C4: the scheduler touches the filesystem at most once per 300-call
window — any call with counter + 1 < 300 only increments the counter,
identically for every filesystem state, and a due call resets the counter
to 0; on a due check with the file present it re-parses if and only if the
file time differs from the stored one; in particular a load of contents
`ini1` at time `t` followed by a due check seeing different contents `ini2`
with the same time `t` leaves every strip untouched. -/
theorem C4_reload_gating :
    (∀ (powInt : ℚ → Int → Int) (fs : Option (Nat × Ini)) (c : TransformConfig),
        c.callCounter + 1 < RELOAD_INTERVAL →
        CheckReload powInt fs c = { c with callCounter := c.callCounter + 1 }) ∧
    (∀ (powInt : ℚ → Int → Int) (t : Nat) (ini : Ini) (c : TransformConfig),
        ¬(c.callCounter + 1 < RELOAD_INTERVAL) → c.lastWriteTime = t →
        CheckReload powInt (some (t, ini)) c = { c with callCounter := 0 }) ∧
    (∀ (powInt : ℚ → Int → Int) (t : Nat) (ini : Ini) (c : TransformConfig),
        ¬(c.callCounter + 1 < RELOAD_INTERVAL) → c.lastWriteTime ≠ t →
        CheckReload powInt (some (t, ini)) c =
          LoadConfig powInt (some (t, ini)) { c with callCounter := 0 }) ∧
    (∀ (powInt : ℚ → Int → Int) (t : Nat) (ini1 ini2 : Ini) (c : TransformConfig),
        (CheckReload powInt (some (t, ini2))
            { LoadConfig powInt (some (t, ini1)) c with
                callCounter := RELOAD_INTERVAL - 1 }).strips =
          (LoadConfig powInt (some (t, ini1)) c).strips) := by
  refine ⟨CheckReload_counter_only, CheckReload_unchanged_time, CheckReload_changed_time, ?_⟩
  intro powInt t ini1 ini2 c
  rw [CheckReload_unchanged_time powInt t ini2 _ (by simp [RELOAD_INTERVAL])
        (by simp [LoadConfig])]

def powZero : ℚ → Int → Int := fun _ _ => 0

/-- C4 witness: an off-window call over the freshly initialised
configuration only bumps the counter. -/
theorem C4_witness :
    (InitConfig powZero).callCounter + 1 < RELOAD_INTERVAL ∧
    CheckReload powZero none (InitConfig powZero) =
      { InitConfig powZero with callCounter := (InitConfig powZero).callCounter + 1 } :=
  ⟨by norm_num [InitConfig, RELOAD_INTERVAL],
   C4_reload_gating.1 powZero none (InitConfig powZero)
     (by norm_num [InitConfig, RELOAD_INTERVAL])⟩

/-- A strip's gradient is only on when its static color is on. -/
def gradInvStrip (s : StripTransform) : Prop :=
  s.gradient_enabled = true → s.static_color_enabled = true

/-- The `LoadStripFromSection` preserves the gradient invariant of its
defaults: a parsed static color turns the static flag on, and the gradient
flag only turns on behind that flag or by inheriting a defaults pair that
already satisfied the invariant. -/
theorem loadStrip_gradInv (powInt : ℚ → Int → Int) (ini : Ini) (sec : String)
    (d : StripTransform) (hd : gradInvStrip d) :
    gradInvStrip (LoadStripFromSection powInt ini sec d) := by
  unfold gradInvStrip at hd ⊢
  rcases hsc : ParseHexColor (GetPrivateProfileStringA ini sec kStaticColor strEmpty 16) with
    _ | ⟨r, g, b⟩
  · rcases hdsc : d.static_color_enabled with _ | _
    · simp only [LoadStripFromSection, hsc, hdsc, Bool.false_eq_true, if_false]
      intro hg
      exact absurd (hd hg) (by simp [hdsc])
    · simp [LoadStripFromSection, hsc, hdsc]
  · simp [LoadStripFromSection, hsc]

/-- Every strip of a configuration satisfies the gradient invariant. -/
def gradInv (c : TransformConfig) : Prop :=
  ∀ i : Fin 10, gradInvStrip (c.strips i)

theorem identityStrip_gradInv (powInt : ℚ → Int → Int) :
    gradInvStrip (identityStrip powInt) := by
  intro h
  simp [identityStrip] at h

theorem LoadConfig_gradInv (powInt : ℚ → Int → Int) (fs : Option (Nat × Ini))
    (c : TransformConfig) (hc : gradInv c) : gradInv (LoadConfig powInt fs c) := by
  rcases fs with _ | ⟨t, ini⟩
  · intro i
    intro hg
    exact hc i hg
  · intro i
    exact loadStrip_gradInv powInt ini _ _
      (loadStrip_gradInv powInt ini kGlobal _ (identityStrip_gradInv powInt))

theorem CheckReload_gradInv (powInt : ℚ → Int → Int) (fs : Option (Nat × Ini))
    (c : TransformConfig) (hc : gradInv c) : gradInv (CheckReload powInt fs c) := by
  rcases fs with _ | ⟨t, ini⟩
  · simp only [CheckReload]
    split_ifs with h1 h2
    · exact hc
    · intro i
      exact identityStrip_gradInv powInt
    · exact hc
  · simp only [CheckReload]
    split_ifs with h1 h2
    · exact hc
    · exact LoadConfig_gradInv powInt _ _ hc
    · exact hc

/-- Any reachable configuration satisfies the gradient invariant. -/
theorem reachable_gradInv (powInt : ℚ → Int → Int) (c : TransformConfig)
    (h : ReachableConfig powInt c) : gradInv c := by
  induction h with
  | init =>
      intro i hg
      exact absurd hg (by simp [InitConfig, identityStrip])
  | step e c' hr ih =>
      cases e with
      | load fs => exact LoadConfig_gradInv powInt fs c' ih
      | check fs => exact CheckReload_gradInv powInt fs c' ih

/-- C5: in every configuration state reachable through `InitConfig`,
`LoadConfig` (with any file contents and global-section inheritance,
including the absent-file path) and `CheckReload` (including its deletion
reset), each strip's `gradient_enabled` flag implies its
`static_color_enabled` flag: a gradient is never active without an active
static color. -/
theorem C5_gradient_implies_static (powInt : ℚ → Int → Int) (c : TransformConfig)
    (hreach : ReachableConfig powInt c) (i : Fin 10)
    (hg : (c.strips i).gradient_enabled = true) :
    (c.strips i).static_color_enabled = true :=
  reachable_gradInv powInt c hreach i hg

def sFF0000 : String := "FF0000"
def s00FF00 : String := "00FF00"

/-- An INI giving every section a static and a gradient color. -/
def iniColors : Ini := fun _ k =>
  if k = kStaticColor then some sFF0000
  else if k = kGradientColor then some s00FF00
  else none

/-- The configuration after loading `iniColors` over the initial state. -/
def cfgColors : TransformConfig :=
  stepConfig powZero (ConfigEvent.load (some (1, iniColors))) (InitConfig powZero)

/-- C5 witness: `cfgColors` is reachable, its first strip has the gradient
on, and the theorem yields that its static color is on. -/
theorem C5_witness :
    (cfgColors.strips 0).gradient_enabled = true ∧
    (cfgColors.strips 0).static_color_enabled = true :=
  ⟨by decide,
   C5_gradient_implies_static powZero cfgColors
     (ReachableConfig.step _ _ ReachableConfig.init) 0 (by decide)⟩

def s12345z : String := "12345z"
def szzzzzz : String := "zzzzzz"
def sAbc : String := "abc"

/-- C3 counterexample: `"12345z"` is six characters but not six hex digits
(`'z'` is not a hex digit), so the claim says `ParseHexColor` treats it as
not specified — yet the `sscanf("%06x")` scan accepts the `"12345"` prefix
and the function returns the color 0x012345. -/
theorem C3_counterexample :
    isHexD 'z' = false ∧ s12345z.toList.length = 6 ∧
    ParseHexColor s12345z = some (1, 35, 69) := by decide

/-- C3 (amended): a value whose length after the optional `'#'` is not 6 is
rejected, and a 6-character value with no leading scannable hex sequence
(such as `"zzzzzz"`) is rejected, resolving exactly as if the
`static_color` key were absent (the same fallback chain); but a 6-character
value that merely starts with hex digits is accepted with the value of its
digit prefix, as the counterexample shows. -/
theorem C3_hex_color_fallback_amended :
    (∀ s : String,
        (if s.toList.head? == some '#' then s.toList.tail else s.toList).length ≠ 6 →
        ParseHexColor s = none) ∧
    ParseHexColor szzzzzz = none ∧
    (∀ (powInt : ℚ → Int → Int) (ini : Ini) (sec : String) (d : StripTransform),
        LoadStripFromSection powInt (iniSetKey ini sec kStaticColor szzzzzz) sec d =
        LoadStripFromSection powInt (iniDelKey ini sec kStaticColor) sec d) := by
  refine ⟨?_, by decide, ?_⟩
  · intro s hlen
    simp only [ParseHexColor]
    split_ifs
    · rfl
    · rfl
  · intro powInt ini sec d
    have hset : ∀ k, k ≠ kStaticColor →
        iniSetKey ini sec kStaticColor szzzzzz sec k = iniDelKey ini sec kStaticColor sec k := by
      intro k hk
      rw [iniSetKey_ne_key _ _ _ _ hk]
      exact (if_neg (fun hc => hk hc.2)).symm
    have hz : ParseHexColor ⟨((some szzzzzz).getD strEmpty).toList.take (16 - 1)⟩ = none := by
      decide
    have habs : ParseHexColor
        ⟨(((none : Option String)).getD strEmpty).toList.take (16 - 1)⟩ = none := by
      decide
    simp only [LoadStripFromSection, GetPrivateProfileStringA, GetPrivateProfileIntA,
      GetProfileFloat, hset kChannelOrder (by decide), hset kGammaR (by decide),
      hset kGammaG (by decide), hset kGammaB (by decide), hset kHueShift (by decide),
      hset kSaturation (by decide), hset kBrightness (by decide),
      hset kGradientColor (by decide)]
    rw [show iniSetKey ini sec kStaticColor szzzzzz sec kStaticColor = some szzzzzz from
          iniSetKey_same _ _ _ _,
        show iniDelKey ini sec kStaticColor sec kStaticColor = (none : Option String) from
          if_pos ⟨rfl, rfl⟩]
    simp only [hz, habs]

/-- C3 witness for the amended claim: a three-character value is rejected. -/
theorem C3_witness :
    (if sAbc.toList.head? == some '#' then sAbc.toList.tail else sAbc.toList).length ≠ 6 ∧
    ParseHexColor sAbc = none :=
  ⟨by decide, C3_hex_color_fallback_amended.1 sAbc (by decide)⟩

/-- The v component survives a `HSVtoRGB` / `RGBtoHSV` round trip exactly,
for any in-range (h, s, v) with h ≥ 0. -/
theorem RGBtoHSV_HSVtoRGB_v {H S v : Int} (hH : 0 ≤ H) (hS0 : 0 ≤ S) (hS1 : S ≤ 255)
    (hv0 : 0 ≤ v) (hv1 : v ≤ 255) :
    (RGBtoHSV (HSVtoRGB H S v).1 (HSVtoRGB H S v).2.1 (HSVtoRGB H S v).2.2).2.2 = v := by
  rw [RGBtoHSV_v]
  obtain ⟨⟨a0, a1⟩, ⟨b0, b1⟩, ⟨c0, c1⟩, hd⟩ := HSVtoRGB_channel_bounds hH hS0 hS1 hv0 hv1
  apply le_antisymm (max_le a1 (max_le b1 c1))
  rcases hd with h | h | h
  · calc v = (HSVtoRGB H S v).1 := h.symm
      _ ≤ _ := le_max_left _ _
  · calc v = (HSVtoRGB H S v).2.1 := h.symm
      _ ≤ max (HSVtoRGB H S v).2.1 (HSVtoRGB H S v).2.2 := le_max_left _ _
      _ ≤ _ := le_max_right _ _
  · calc v = (HSVtoRGB H S v).2.2 := h.symm
      _ ≤ max (HSVtoRGB H S v).2.1 (HSVtoRGB H S v).2.2 := le_max_right _ _
      _ ≤ _ := le_max_right _ _

/-- C6 counterexample: at (h, s, v) = (0, 1, 1) — inside the claimed domain
h ∈ [0, 359], s ∈ [1, 255], v ∈ [1, 255] — the round trip returns
s' = 255, off by 254, not within ±1. -/
theorem C6_counterexample :
    HSVtoRGB 0 1 1 = (1, 0, 0) ∧
    RGBtoHSV (HSVtoRGB 0 1 1).1 (HSVtoRGB 0 1 1).2.1 (HSVtoRGB 0 1 1).2.2 = (0, 255, 1) ∧
    ¬((RGBtoHSV (HSVtoRGB 0 1 1).1 (HSVtoRGB 0 1 1).2.1 (HSVtoRGB 0 1 1).2.2).2.1 - 1 ≤ 1) := by
  decide

/-- C6 (amended): over the claimed domain the v component round-trips
exactly (v' = v, so |v' − v| ≤ 1 holds, but h and s can be off by up to
254 at low saturation or value, as the counterexample shows); at full
saturation and value (s = v = 255) the round trip is exact in all three
components for every hue. -/
theorem C6_roundtrip_amended :
    (∀ h s v : Int, 0 ≤ h → h ≤ 359 → 1 ≤ s → s ≤ 255 → 1 ≤ v → v ≤ 255 →
        (RGBtoHSV (HSVtoRGB h s v).1 (HSVtoRGB h s v).2.1 (HSVtoRGB h s v).2.2).2.2 = v) ∧
    (∀ h : Fin 360,
        RGBtoHSV (HSVtoRGB (h : Int) 255 255).1 (HSVtoRGB (h : Int) 255 255).2.1
          (HSVtoRGB (h : Int) 255 255).2.2 = ((h : Int), 255, 255)) := by
  constructor
  · intro h s v hh _ hs0 hs1 hv0 hv1
    exact RGBtoHSV_HSVtoRGB_v hh (by omega) hs1 (by omega) hv1
  · decide

/-- C6 witness: the amended v-exactness at (h, s, v) = (5, 3, 7). -/
theorem C6_witness :
    (RGBtoHSV (HSVtoRGB 5 3 7).1 (HSVtoRGB 5 3 7).2.1 (HSVtoRGB 5 3 7).2.2).2.2 = 7 :=
  C6_roundtrip_amended.1 5 3 7 (by norm_num) (by norm_num) (by norm_num) (by norm_num)
    (by norm_num) (by norm_num)

/-- The hue-interpolation increment `hDiff * ledIdx / (numLEDs - 1)` stays
in [-180, 180] when `hDiff` does. -/
theorem tdiv_interp_bound {d i n : Int} (hd0 : -180 ≤ d) (hd1 : d ≤ 180)
    (hn : 1 < n) (hi0 : 0 ≤ i) (hi1 : i ≤ n - 1) :
    -180 ≤ (d * i).tdiv (n - 1) ∧ (d * i).tdiv (n - 1) ≤ 180 := by
  constructor
  · refine neg_le_tdiv (by omega) (by norm_num) ?_
    have h1 : (-180) * i ≤ d * i := mul_le_mul_of_nonneg_right hd0 hi0
    have h2 : 180 * i ≤ 180 * (n - 1) := mul_le_mul_of_nonneg_left hi1 (by norm_num)
    omega
  · refine tdiv_le_of_le_mul (by omega) (by norm_num) ?_
    have h1 : d * i ≤ 180 * i := mul_le_mul_of_nonneg_right hd1 hi0
    have h2 : 180 * i ≤ 180 * (n - 1) := mul_le_mul_of_nonneg_left hi1 (by norm_num)
    omega

/-- The interpolated saturation `S1 + (S2 - S1) * ledIdx / (numLEDs - 1)`
stays between the two endpoint saturations, hence in [0, 255]. -/
theorem interpS_bound {S1 S2 i n : Int} (hS10 : 0 ≤ S1) (hS11 : S1 ≤ 255)
    (hS20 : 0 ≤ S2) (hS21 : S2 ≤ 255) (hn : 1 < n) (hi0 : 0 ≤ i) (hi1 : i ≤ n - 1) :
    0 ≤ S1 + ((S2 - S1) * i).tdiv (n - 1) ∧ S1 + ((S2 - S1) * i).tdiv (n - 1) ≤ 255 := by
  rcases le_total S1 S2 with hle | hle
  · have t0 : 0 ≤ ((S2 - S1) * i).tdiv (n - 1) :=
      Int.tdiv_nonneg (mul_nonneg (by omega) hi0) (by omega)
    have t1 : ((S2 - S1) * i).tdiv (n - 1) ≤ S2 - S1 := by
      refine tdiv_le_of_le_mul (by omega) (by omega) ?_
      exact mul_le_mul_of_nonneg_left hi1 (by omega)
    omega
  · have t1 : ((S2 - S1) * i).tdiv (n - 1) ≤ 0 := by
      refine tdiv_le_of_le_mul (by omega) le_rfl ?_
      have h0 : (S2 - S1) * i ≤ 0 * i := mul_le_mul_of_nonneg_right (by omega) hi0
      omega
    have hh : (S2 - S1) * (n - 1) ≤ (S2 - S1) * i := mul_le_mul_of_nonpos_left hi1 (by omega)
    have hx : -((S1 - S2) * (n - 1)) ≤ (S2 - S1) * i := by
      have e : -((S1 - S2) * (n - 1)) = (S2 - S1) * (n - 1) := by ring
      omega
    have t2 := neg_le_tdiv (show (0:Int) < n - 1 by omega)
      (show (0:Int) ≤ S1 - S2 by omega) hx
    omega

/-- The value (v) component a triple exposes through `RGBtoHSV`. -/
def hsvValue (c : Int × Int × Int) : Int := (RGBtoHSV c.1 c.2.1 c.2.2).2.2

/-- The shortest-arc hue difference of `TransformStrip`'s gradient path
lands in [-180, 180] for hues in [0, 360). -/
theorem hueDiff_bound {H1 H2 : Int} (h10 : 0 ≤ H1) (h11 : H1 < 360)
    (h20 : 0 ≤ H2) (h21 : H2 < 360) :
    -180 ≤ (if (if H2 - H1 > 180 then H2 - H1 - 360 else H2 - H1) < -180
            then (if H2 - H1 > 180 then H2 - H1 - 360 else H2 - H1) + 360
            else (if H2 - H1 > 180 then H2 - H1 - 360 else H2 - H1)) ∧
    (if (if H2 - H1 > 180 then H2 - H1 - 360 else H2 - H1) < -180
     then (if H2 - H1 > 180 then H2 - H1 - 360 else H2 - H1) + 360
     else (if H2 - H1 > 180 then H2 - H1 - 360 else H2 - H1)) ≤ 180 := by
  split_ifs <;> omega

/-- Byte bounds for the value component of `RGBtoHSV` on byte inputs. -/
theorem hsvValue_bounds {cr cg cb : Int} (hcr0 : 0 ≤ cr) (hcr1 : cr ≤ 255)
    (hcg0 : 0 ≤ cg) (hcg1 : cg ≤ 255) (hcb0 : 0 ≤ cb) (hcb1 : cb ≤ 255) :
    0 ≤ (RGBtoHSV cr cg cb).2.2 ∧ (RGBtoHSV cr cg cb).2.2 ≤ 255 := by
  rw [RGBtoHSV_v]
  constructor
  · exact le_trans hcr0 (le_max_left _ _)
  · exact max_le hcr1 (max_le hcg1 hcb1)

/-- C7: for a strip with a static color enabled, the color-substitution
stage (`step3`, fed with the hue/saturation values `TransformStrip`
precomputes from the strip's static and gradient colors) produces a pixel
whose value component under `RGBtoHSV` equals the incoming pixel's value
component exactly — in both the single-color and the gradient path, the
substituted color contributes only hue and saturation. -/
theorem C7_static_value_preservation (strip : StripTransform) (n i cr cg cb : Int)
    (hstat : strip.static_color_enabled = true)
    (hsb : 0 ≤ strip.static_r ∧ strip.static_r ≤ 255 ∧ 0 ≤ strip.static_g ∧
      strip.static_g ≤ 255 ∧ 0 ≤ strip.static_b ∧ strip.static_b ≤ 255)
    (hgb : 0 ≤ strip.gradient_r2 ∧ strip.gradient_r2 ≤ 255 ∧ 0 ≤ strip.gradient_g2 ∧
      strip.gradient_g2 ≤ 255 ∧ 0 ≤ strip.gradient_b2 ∧ strip.gradient_b2 ≤ 255)
    (hpix : 0 ≤ cr ∧ cr ≤ 255 ∧ 0 ≤ cg ∧ cg ≤ 255 ∧ 0 ≤ cb ∧ cb ≤ 255)
    (hi0 : 0 ≤ i) (hi1 : i < n) :
    hsvValue (step3 strip
      (RGBtoHSV strip.static_r strip.static_g strip.static_b).1
      (RGBtoHSV strip.static_r strip.static_g strip.static_b).2.1
      (RGBtoHSV strip.gradient_r2 strip.gradient_g2 strip.gradient_b2).1
      (RGBtoHSV strip.gradient_r2 strip.gradient_g2 strip.gradient_b2).2.1
      n i (cr, cg, cb)) = hsvValue (cr, cg, cb) := by
  obtain ⟨hsr0, hsr1, hsg0, hsg1, hsb0, hsb1⟩ := hsb
  obtain ⟨hgr0, hgr1, hgg0, hgg1, hgb0, hgb1⟩ := hgb
  obtain ⟨hcr0, hcr1, hcg0, hcg1, hcb0, hcb1⟩ := hpix
  obtain ⟨⟨hH10, hH11⟩, hS10, hS11⟩ := RGBtoHSV_hs_range hsr0 hsr1 hsg0 hsg1 hsb0 hsb1
  obtain ⟨⟨hH20, hH21⟩, hS20, hS21⟩ := RGBtoHSV_hs_range hgr0 hgr1 hgg0 hgg1 hgb0 hgb1
  obtain ⟨hv0, hv1⟩ := hsvValue_bounds hcr0 hcr1 hcg0 hcg1 hcb0 hcb1
  simp only [step3, hstat, if_true]
  by_cases hg : strip.gradient_enabled = true ∧ n > 1
  · rw [if_pos hg]
    obtain ⟨hd0, hd1⟩ := hueDiff_bound hH10 hH11 hH20 hH21
    obtain ⟨ht0, ht1⟩ := tdiv_interp_bound hd0 hd1 hg.2 hi0 (by omega)
    obtain ⟨hs0, hs1⟩ := interpS_bound hS10 hS11 hS20 hS21 hg.2 hi0 (by omega)
    simp only [hsvValue]
    exact RGBtoHSV_HSVtoRGB_v (Int.tmod_nonneg _ (by omega)) hs0 hs1 hv0 hv1
  · rw [if_neg hg]
    simp only [hsvValue]
    exact RGBtoHSV_HSVtoRGB_v hH10 hS10 hS11 hv0 hv1

/-- A concrete static-color + gradient strip for the closed corollaries. -/
def wStaticStrip : StripTransform where
  enabled := true
  channelOrder := CH_RGB
  gamma_r := 1
  gamma_g := 1
  gamma_b := 1
  hue_shift := 0
  saturation := 100
  brightness := 100
  static_color_enabled := true
  static_r := 255
  static_g := 0
  static_b := 0
  gradient_enabled := true
  gradient_r2 := 0
  gradient_g2 := 0
  gradient_b2 := 255
  lut_r := fun i => i
  lut_g := fun i => i
  lut_b := fun i => i

/-- C7 witness: on a two-LED gradient strip (red to blue), the second LED's
substituted pixel keeps the value component of the incoming pixel
(10, 20, 30). -/
theorem C7_witness :
    hsvValue (step3 wStaticStrip
      (RGBtoHSV wStaticStrip.static_r wStaticStrip.static_g wStaticStrip.static_b).1
      (RGBtoHSV wStaticStrip.static_r wStaticStrip.static_g wStaticStrip.static_b).2.1
      (RGBtoHSV wStaticStrip.gradient_r2 wStaticStrip.gradient_g2 wStaticStrip.gradient_b2).1
      (RGBtoHSV wStaticStrip.gradient_r2 wStaticStrip.gradient_g2 wStaticStrip.gradient_b2).2.1
      2 1 (10, 20, 30)) = hsvValue (10, 20, 30) :=
  C7_static_value_preservation wStaticStrip 2 1 10 20 30 rfl
    (by norm_num [wStaticStrip]) (by norm_num [wStaticStrip]) (by norm_num)
    (by norm_num) (by norm_num)

/-- The `HSVtoRGB` at value 0 is black, whatever h and s. -/
theorem HSVtoRGB_v_zero (h s : Int) : HSVtoRGB h s 0 = (0, 0, 0) := by
  simp only [HSVtoRGB]
  split_ifs <;> simp [u8]

/-- The `step3` maps a black pixel to black, for any strip and any precomputed
static hue/saturation values. -/
theorem step3_zero (strip : StripTransform) (sH1 sS1 sH2 sS2 n i : Int) :
    step3 strip sH1 sS1 sH2 sS2 n i (0, 0, 0) = (0, 0, 0) := by
  have hz : RGBtoHSV 0 0 0 = (0, 0, 0) := by decide
  simp only [step3, hz]
  split_ifs <;> simp [HSVtoRGB_v_zero]

/-- The `channelSwap` maps black to black. -/
theorem channelSwap_zero (o : ChannelOrder) : channelSwap o 0 0 0 = (0, 0, 0) := by
  cases o <;> rfl

/-- The `step3`'s output channels never exceed the incoming pixel's value
component, for any strip whose static/gradient colors are bytes and whose
resolved hue shift and saturation are non-negative (as every loaded strip's
are). -/
theorem step3_channels_le (strip : StripTransform) (n i cr cg cb : Int)
    (hsb : 0 ≤ strip.static_r ∧ strip.static_r ≤ 255 ∧ 0 ≤ strip.static_g ∧
      strip.static_g ≤ 255 ∧ 0 ≤ strip.static_b ∧ strip.static_b ≤ 255)
    (hgb : 0 ≤ strip.gradient_r2 ∧ strip.gradient_r2 ≤ 255 ∧ 0 ≤ strip.gradient_g2 ∧
      strip.gradient_g2 ≤ 255 ∧ 0 ≤ strip.gradient_b2 ∧ strip.gradient_b2 ≤ 255)
    (hpix : 0 ≤ cr ∧ cr ≤ 255 ∧ 0 ≤ cg ∧ cg ≤ 255 ∧ 0 ≤ cb ∧ cb ≤ 255)
    (hhs : 0 ≤ strip.hue_shift) (hsat : 0 ≤ strip.saturation)
    (hi0 : 0 ≤ i) (hi1 : i < n) :
    (step3 strip
      (RGBtoHSV strip.static_r strip.static_g strip.static_b).1
      (RGBtoHSV strip.static_r strip.static_g strip.static_b).2.1
      (RGBtoHSV strip.gradient_r2 strip.gradient_g2 strip.gradient_b2).1
      (RGBtoHSV strip.gradient_r2 strip.gradient_g2 strip.gradient_b2).2.1
      n i (cr, cg, cb)).1 ≤ hsvValue (cr, cg, cb) ∧
    (step3 strip
      (RGBtoHSV strip.static_r strip.static_g strip.static_b).1
      (RGBtoHSV strip.static_r strip.static_g strip.static_b).2.1
      (RGBtoHSV strip.gradient_r2 strip.gradient_g2 strip.gradient_b2).1
      (RGBtoHSV strip.gradient_r2 strip.gradient_g2 strip.gradient_b2).2.1
      n i (cr, cg, cb)).2.1 ≤ hsvValue (cr, cg, cb) ∧
    (step3 strip
      (RGBtoHSV strip.static_r strip.static_g strip.static_b).1
      (RGBtoHSV strip.static_r strip.static_g strip.static_b).2.1
      (RGBtoHSV strip.gradient_r2 strip.gradient_g2 strip.gradient_b2).1
      (RGBtoHSV strip.gradient_r2 strip.gradient_g2 strip.gradient_b2).2.1
      n i (cr, cg, cb)).2.2 ≤ hsvValue (cr, cg, cb) := by
  obtain ⟨hsr0, hsr1, hsg0, hsg1, hsb0, hsb1⟩ := hsb
  obtain ⟨hgr0, hgr1, hgg0, hgg1, hgb0, hgb1⟩ := hgb
  obtain ⟨hcr0, hcr1, hcg0, hcg1, hcb0, hcb1⟩ := hpix
  obtain ⟨hv0, hv1⟩ := hsvValue_bounds hcr0 hcr1 hcg0 hcg1 hcb0 hcb1
  simp only [hsvValue]
  by_cases hstat : strip.static_color_enabled = true
  · obtain ⟨⟨hH10, hH11⟩, hS10, hS11⟩ := RGBtoHSV_hs_range hsr0 hsr1 hsg0 hsg1 hsb0 hsb1
    obtain ⟨⟨hH20, hH21⟩, hS20, hS21⟩ := RGBtoHSV_hs_range hgr0 hgr1 hgg0 hgg1 hgb0 hgb1
    simp only [step3, hstat, if_true]
    by_cases hg : strip.gradient_enabled = true ∧ n > 1
    · rw [if_pos hg]
      obtain ⟨hd0, hd1⟩ := hueDiff_bound hH10 hH11 hH20 hH21
      obtain ⟨ht0, ht1⟩ := tdiv_interp_bound hd0 hd1 hg.2 hi0 (by omega)
      obtain ⟨hs0, hs1⟩ := interpS_bound hS10 hS11 hS20 hS21 hg.2 hi0 (by omega)
      exact ⟨(HSVtoRGB_channel_bounds (Int.tmod_nonneg _ (by omega)) hs0 hs1 hv0 hv1).1.2,
        (HSVtoRGB_channel_bounds (Int.tmod_nonneg _ (by omega)) hs0 hs1 hv0 hv1).2.1.2,
        (HSVtoRGB_channel_bounds (Int.tmod_nonneg _ (by omega)) hs0 hs1 hv0 hv1).2.2.1.2⟩
    · rw [if_neg hg]
      obtain ⟨⟨_, q1⟩, ⟨_, q2⟩, ⟨_, q3⟩, _⟩ :=
        HSVtoRGB_channel_bounds hH10 hS10 hS11 hv0 hv1
      exact ⟨q1, q2, q3⟩
  · have hsf : strip.static_color_enabled = false := by
      revert hstat
      cases strip.static_color_enabled <;> simp
    simp only [step3, hsf, Bool.false_eq_true, if_false]
    obtain ⟨⟨hph0, hph1⟩, hps0, hps1⟩ := RGBtoHSV_hs_range hcr0 hcr1 hcg0 hcg1 hcb0 hcb1
    by_cases hns : strip.hue_shift ≠ 0 ∨ strip.saturation ≠ 100
    · rw [if_pos hns]
      have hh2 : 0 ≤ ((RGBtoHSV cr cg cb).1 + strip.hue_shift).tmod 360 :=
        Int.tmod_nonneg _ (by omega)
      by_cases hsne : strip.saturation ≠ 100
      · rw [if_pos hsne]
        have hs20 : 0 ≤ min (((RGBtoHSV cr cg cb).2.1 * strip.saturation).tdiv 100) 255 :=
          le_min (Int.tdiv_nonneg (mul_nonneg hps0 hsat) (by norm_num)) (by norm_num)
        have hs21 : min (((RGBtoHSV cr cg cb).2.1 * strip.saturation).tdiv 100) 255 ≤ 255 :=
          min_le_right _ _
        obtain ⟨⟨_, q1⟩, ⟨_, q2⟩, ⟨_, q3⟩, _⟩ :=
          HSVtoRGB_channel_bounds hh2 hs20 hs21 hv0 hv1
        exact ⟨q1, q2, q3⟩
      · rw [if_neg hsne]
        obtain ⟨⟨_, q1⟩, ⟨_, q2⟩, ⟨_, q3⟩, _⟩ :=
          HSVtoRGB_channel_bounds hh2 hps0 hps1 hv0 hv1
        exact ⟨q1, q2, q3⟩
    · rw [if_neg hns]
      rw [RGBtoHSV_v]
      refine ⟨le_max_left _ _, ?_, ?_⟩
      · exact le_trans (le_max_left _ _) (le_max_right _ _)
      · exact le_trans (le_max_right _ _) (le_max_right _ _)

/-- C10: every channel `HSVtoRGB` returns is at most `v` on the claimed
domain; hence the color-substitution / hue-saturation stage (`step3`, fed
with `TransformStrip`'s precomputed static values) never raises any channel
above the incoming pixel's value component; and an unlit (all-zero) LED
stays all-zero through the whole per-LED transform — static color,
gradient, hue/saturation and brightness included — whenever the strip's
LUTs map 0 to 0 (which the built tables do). -/
theorem C10_channels_bounded_by_value :
    (∀ h s v : Int, 0 ≤ h → h ≤ 359 → 0 ≤ s → s ≤ 255 → 0 ≤ v → v ≤ 255 →
        (HSVtoRGB h s v).1 ≤ v ∧ (HSVtoRGB h s v).2.1 ≤ v ∧ (HSVtoRGB h s v).2.2 ≤ v) ∧
    (∀ (strip : StripTransform) (n i cr cg cb : Int),
        (0 ≤ strip.static_r ∧ strip.static_r ≤ 255 ∧ 0 ≤ strip.static_g ∧
          strip.static_g ≤ 255 ∧ 0 ≤ strip.static_b ∧ strip.static_b ≤ 255) →
        (0 ≤ strip.gradient_r2 ∧ strip.gradient_r2 ≤ 255 ∧ 0 ≤ strip.gradient_g2 ∧
          strip.gradient_g2 ≤ 255 ∧ 0 ≤ strip.gradient_b2 ∧ strip.gradient_b2 ≤ 255) →
        (0 ≤ cr ∧ cr ≤ 255 ∧ 0 ≤ cg ∧ cg ≤ 255 ∧ 0 ≤ cb ∧ cb ≤ 255) →
        0 ≤ strip.hue_shift → 0 ≤ strip.saturation → 0 ≤ i → i < n →
        (step3 strip
          (RGBtoHSV strip.static_r strip.static_g strip.static_b).1
          (RGBtoHSV strip.static_r strip.static_g strip.static_b).2.1
          (RGBtoHSV strip.gradient_r2 strip.gradient_g2 strip.gradient_b2).1
          (RGBtoHSV strip.gradient_r2 strip.gradient_g2 strip.gradient_b2).2.1
          n i (cr, cg, cb)).1 ≤ hsvValue (cr, cg, cb) ∧
        (step3 strip
          (RGBtoHSV strip.static_r strip.static_g strip.static_b).1
          (RGBtoHSV strip.static_r strip.static_g strip.static_b).2.1
          (RGBtoHSV strip.gradient_r2 strip.gradient_g2 strip.gradient_b2).1
          (RGBtoHSV strip.gradient_r2 strip.gradient_g2 strip.gradient_b2).2.1
          n i (cr, cg, cb)).2.1 ≤ hsvValue (cr, cg, cb) ∧
        (step3 strip
          (RGBtoHSV strip.static_r strip.static_g strip.static_b).1
          (RGBtoHSV strip.static_r strip.static_g strip.static_b).2.1
          (RGBtoHSV strip.gradient_r2 strip.gradient_g2 strip.gradient_b2).1
          (RGBtoHSV strip.gradient_r2 strip.gradient_g2 strip.gradient_b2).2.1
          n i (cr, cg, cb)).2.2 ≤ hsvValue (cr, cg, cb)) ∧
    (∀ (strip : StripTransform) (sH1 sS1 sH2 sS2 n i : Int),
        strip.lut_r 0 = 0 → strip.lut_g 0 = 0 → strip.lut_b 0 = 0 →
        transformLED strip sH1 sS1 sH2 sS2 n i (0, 0, 0) = (0, 0, 0)) := by
  refine ⟨?_, ?_, ?_⟩
  · intro h s v hh _ hs0 hs1 hv0 hv1
    obtain ⟨⟨_, q1⟩, ⟨_, q2⟩, ⟨_, q3⟩, _⟩ := HSVtoRGB_channel_bounds hh hs0 hs1 hv0 hv1
    exact ⟨q1, q2, q3⟩
  · intro strip n i cr cg cb hsb hgb hpix hhs hsat hi0 hi1
    exact step3_channels_le strip n i cr cg cb hsb hgb hpix hhs hsat hi0 hi1
  · intro strip sH1 sS1 sH2 sS2 n i h1 h2 h3
    simp only [transformLED, channelSwap_zero strip.channelOrder, h1, h2, h3, step3_zero]
    split_ifs <;> simp [u8]

/-- C10 witness: the channel bound at (h, s, v) = (100, 200, 50), and a
black LED staying black through the full per-LED transform of the concrete
gradient strip. -/
theorem C10_witness :
    ((HSVtoRGB 100 200 50).1 ≤ 50 ∧ (HSVtoRGB 100 200 50).2.1 ≤ 50 ∧
      (HSVtoRGB 100 200 50).2.2 ≤ 50) ∧
    transformLED wStaticStrip 0 0 120 255 2 0 (0, 0, 0) = (0, 0, 0) :=
  ⟨C10_channels_bounded_by_value.1 100 200 50 (by norm_num) (by norm_num) (by norm_num)
      (by norm_num) (by norm_num) (by norm_num),
   C10_channels_bounded_by_value.2.2 wStaticStrip 0 0 120 255 2 0 rfl rfl rfl⟩

end SdvxRgb
